import Mathlib

/-!
Shallow embedding of `bimcc.py` (BLE Interactive Meshtastic Chat Client 0.1.0).

The program has four parts, each embedded below as a pure Lean function over
the data it actually reads, with console/transport side effects reified as
explicit traces:

* `custom_find_device` (source lines 20-57): unfiltered scan plus
  case-insensitive address match.  The scan result (`BLEInterface.scan()`)
  is an external input, so the embedding takes the discovered device list
  as an argument; the printed lines are returned as a `List String` log and
  the Python `raise Exception(...)` becomes `Except.error`.
* `custom_connect` (lines 60-97): direct connect-by-address path versus the
  captured `_original_connect` fallback.  Python evaluates `if address:` by
  truthiness, which is false for `None` and for the empty string; the
  embedding takes `Option String` and tests emptiness explicitly.  The
  `disconnected_callback=lambda _: self.close` argument is embedded
  faithfully as a function that, when invoked, performs no state change and
  merely returns the (unapplied) bound method `self.close`.
* `onReceive` (lines 100-141): inbound text handler.  Console output is the
  list of exact byte strings written: `print(s)` writes `s ++ "\n"`,
  `print("Ch0> ", end="", flush=True)` writes `"Ch0> "`.  A Python packet
  dict is a structure of optional fields; `None` (and the empty dict, which
  `if not packet:` also treats as absent and which is observationally
  identical here since every field lookup then misses) is `none`.
* `main` (lines 144-180): the session.  Its observable transport/process
  actions (sends, `ble_iface.close()`, `sys.exit(code)`) are reified as an
  `Act` trace; console prints are not recorded in this trace.  The external
  nondeterminism — whether the `BLEInterface(address=address)` constructor
  succeeds, and what each `input()` call yields (a line, a
  `KeyboardInterrupt`, or an unexpected exception; `sendText` failures are
  folded into the same exception event) — is passed in as parameters.  The
  `finally:` block runs `ble_iface.close()` then `sys.exit(0)` on every way
  out of the `try`, and a `sys.exit` raised inside `finally` supersedes any
  exception propagating out of the `try` body, so even the unexpected-
  exception path closes and exits with status 0.
-/

/-- Python `str.lower()` on the strings involved (ASCII addresses). -/
def lowerStr (s : String) : String := String.mk (s.data.map Char.toLower)

/-- Device descriptor as produced by the scan: `d.address`, `d.name`. -/
structure BLEDevice where
  address : String
  name : String
deriving DecidableEq

/-- The per-device comparison of the match loop: `d.address.lower() == addr_lower`. -/
def addrMatches (address : String) (d : BLEDevice) : Bool :=
  lowerStr d.address == lowerStr address

/-- The line printed for each discovered device:
`print(f"  Address: {d.address}, Name: {d.name}")`. -/
def devLine (d : BLEDevice) : String :=
  "  Address: " ++ d.address ++ ", Name: " ++ d.name

/-- The message of the `Exception` raised when no device matches. -/
def noDeviceMsg (address : String) : String :=
  "No BLE peripheral with address \x27" ++ address ++ "\x27 found. Try --ble-scan."

/-- `custom_find_device` (lines 49-57).  `devices` stands for the external
scan result `BLEInterface.scan()`.  First component: the printed lines, in
order.  Second: the returned device, or the raised exception's message. -/
def custom_find_device (devices : List BLEDevice) (address : String) :
    List String × Except String BLEDevice :=
  let log := "Discovered Devices:" :: devices.map devLine
  match devices.find? (addrMatches address) with
  | some d => (log, Except.ok d)
  | none => (log, Except.error (noDeviceMsg address))

/-- State of the owning `BLEInterface`, tracking whether `close` ran. -/
structure IfaceState where
  closeCalled : Bool
deriving DecidableEq

/-- The interface's `close` routine: running it marks the interface closed. -/
def ifaceClose (_ : IfaceState) : IfaceState :=
  { closeCalled := true }

/-- The value `lambda _: self.close` passed as `disconnected_callback`
(line 92).  Invoking it takes the dropped client argument (ignored) and the
interface state; the lambda body is the attribute access `self.close`, so
the invocation changes no state and returns the unapplied close routine. -/
def disconnectLambda : Unit → IfaceState → IfaceState × (IfaceState → IfaceState) :=
  fun _ s => (s, ifaceClose)

/-- The `BLEClient` built on the direct path: constructed against the given
address, then `client.connect()` and `client.discover()` have run. -/
structure BLEClient where
  address : String
  connected : Bool
  discovered : Bool
  disconnected_callback : Unit → IfaceState → IfaceState × (IfaceState → IfaceState)

/-- Result of `custom_connect`: either the directly-built client, or a
delegation to the captured `_original_connect` with the given address. -/
inductive ConnectResult where
  | client (c : BLEClient)
  | original (address : Option String)

/-- `custom_connect` (lines 91-97).  Python `if address:` is true exactly
when `address` is neither `None` nor the empty string; otherwise the call
delegates to `_original_connect(self, address)`. -/
def custom_connect : Option String → ConnectResult
  | some a =>
      if a = "" then ConnectResult.original (some a)
      else ConnectResult.client
        ⟨a, true, true, disconnectLambda⟩
  | none => ConnectResult.original none

/-- The `"decoded"` entry of a packet dict: may or may not carry `"text"`. -/
structure Decoded where
  text : Option String
deriving DecidableEq

/-- A received packet dict: optional `"fromId"` and `"decoded"` entries. -/
structure Packet where
  fromId : Option String
  decoded : Option Decoded
deriving DecidableEq

/-- `onReceive` (lines 134-141).  Returns the exact strings written to the
console, in order: `print(f"\n{sender}: {message}")` writes the formatted
text plus a terminating newline, and `print("Ch0> ", end="", flush=True)`
writes the bare prompt. -/
def onReceive (packet : Option Packet) : List String :=
  match packet with
  | none => []
  | some p =>
      let decoded := p.decoded.getD ⟨none⟩
      match decoded.text with
      | some message =>
          let sender := p.fromId.getD "unknown"
          ["\n" ++ sender ++ ": " ++ message ++ "\n", "Ch0> "]
      | none => []

/-- What one `input()` call in the session loop yields: a line of text, a
`KeyboardInterrupt`, or an unexpected exception (also covering a `sendText`
failure inside the same iteration). -/
inductive InEvent where
  | line (s : String)
  | interrupt
  | exn
deriving DecidableEq

/-- Observable transport/process actions of `main`. -/
inductive Act where
  | send (text : String) (channelIndex : Nat)
  | close
  | exitProc (code : Nat)
deriving DecidableEq

/-- The `try`/`except KeyboardInterrupt`/`finally` region (lines 169-180),
as the action trace produced while consuming the given input events.
A `line msg` iteration sends `msg` on channel 0 unless `msg` is empty
(Python `if msg:`), then loops.  `KeyboardInterrupt` is caught (printing
the exit notice, not recorded here) and any other exception propagates,
but the `finally:` block runs `ble_iface.close()` then `sys.exit(0)` on
both paths, and the `sys.exit` raised inside `finally` supersedes the
propagating exception.  An empty event list means the loop is still
blocked waiting for input. -/
def loopActs : List InEvent → List Act
  | [] => []
  | InEvent.line msg :: rest =>
      (if msg = "" then [] else [Act.send msg 0]) ++ loopActs rest
  | InEvent.interrupt :: _ => [Act.close, Act.exitProc 0]
  | InEvent.exn :: _ => [Act.close, Act.exitProc 0]

/-- The source function `main` (lines 144-180) as an action trace (named
`mainRun` because the name `main` is reserved in Lean).  `argv` is `sys.argv`;
`connectOk` says whether `BLEInterface(address=address)` succeeded (its
failure is caught, a diagnostic printed, and `sys.exit(1)` raised);
`events` drives the session loop. -/
def mainRun (argv : List String) (connectOk : Bool) (events : List InEvent) :
    List Act :=
  if argv.length < 2 then [Act.exitProc 1]
  else if connectOk = false then [Act.exitProc 1]
  else loopActs events

/-- Helper: `find?` is insensitive to everything but membership when at most
one element of the list satisfies the predicate. -/
theorem find?_eq_of_unique (p : BLEDevice → Bool) (l : List BLEDevice)
    (huniq : ∀ d1 d2, d1 ∈ l → d2 ∈ l → p d1 = true → p d2 = true → d1 = d2)
    (d : BLEDevice) (hd : d ∈ l) (hpd : p d = true) :
    l.find? p = some d := by
  cases h : l.find? p with
  | none =>
      rw [List.find?_eq_none] at h
      exact absurd hpd (by simpa using h d hd)
  | some d0 =>
      have h1 : p d0 = true := List.find?_some h
      have h2 : d0 ∈ l := List.mem_of_find?_eq_some h
      rw [huniq d0 d h2 hd h1 hpd]

/-- Helper: in the session loop, every process exit in the trace carries
status 0 and is immediately preceded by the close of the interface. -/
theorem loopActs_close_before_exit (events : List InEvent) (c : Nat)
    (h : Act.exitProc c ∈ loopActs events) :
    c = 0 ∧ ∃ pre, loopActs events = pre ++ [Act.close, Act.exitProc c] := by
  induction events with
  | nil => simp [loopActs] at h
  | cons e rest ih =>
      cases e with
      | line msg =>
          rw [loopActs] at h
          rcases List.mem_append.mp h with h1 | h2
          · by_cases hm : msg = "" <;> simp [hm] at h1
          · obtain ⟨hc, pre, hp⟩ := ih h2
            refine ⟨hc, (if msg = "" then [] else [Act.send msg 0]) ++ pre, ?_⟩
            rw [loopActs, hp, List.append_assoc]
      | interrupt =>
          simp [loopActs] at h
          subst h
          exact ⟨rfl, [], rfl⟩
      | exn =>
          simp [loopActs] at h
          subst h
          exact ⟨rfl, [], rfl⟩

/-- Claim C1: the spec requires the disconnect callback registered by
`custom_connect` on a non-null address to actually call the owning
interface's close routine when invoked.  The code's callback is
`lambda _: self.close`, whose body merely evaluates the attribute
`self.close`: invoking the registered callback leaves the interface state
unchanged (so `close` is never run, `closeCalled` stays as it was) and
returns the unapplied close routine as its value. -/
theorem claim1_callback_no_close (a : String) (h : a ≠ "") :
    ∃ c, custom_connect (some a) = ConnectResult.client c ∧
      ∀ u s, (c.disconnected_callback u s).1 = s ∧
        ((c.disconnected_callback u s).1).closeCalled = s.closeCalled ∧
        (c.disconnected_callback u s).2 = ifaceClose := by
  refine ⟨⟨a, true, true, disconnectLambda⟩, by simp [custom_connect, h], ?_⟩
  intro u s
  exact ⟨rfl, rfl, rfl⟩

/-- Witness for C1 at the concrete address "AA:BB". -/
theorem claim1_wit :
    ∃ c, custom_connect (some "AA:BB") = ConnectResult.client c ∧
      ∀ u s, (c.disconnected_callback u s).1 = s ∧
        ((c.disconnected_callback u s).1).closeCalled = s.closeCalled ∧
        (c.disconnected_callback u s).2 = ifaceClose :=
  claim1_callback_no_close "AA:BB" (by decide)

/-- Counterexample for C2: the empty string is a non-null address, yet
`custom_connect` delegates it to the captured original (discovery-based)
connect, because Python `if address:` is false for `""`. -/
theorem claim2_cex :
    (some "" : Option String) ≠ none ∧
      custom_connect (some "") = ConnectResult.original (some "") :=
  ⟨by simp, by simp [custom_connect]⟩

/-- Claim C2 (amended): for every non-empty address string, `custom_connect`
returns a directly-constructed client and never delegates to the captured
original connect; for a null address it always delegates to it. -/
theorem claim2_direct_or_fallback :
    (∀ a : String, a ≠ "" → ∃ c, custom_connect (some a) = ConnectResult.client c) ∧
      custom_connect none = ConnectResult.original none := by
  constructor
  · intro a h
    exact ⟨⟨a, true, true, disconnectLambda⟩, by simp [custom_connect, h]⟩
  · rfl

/-- Witness for C2 at the concrete address "AA:BB:CC:DD:EE:FF". -/
theorem claim2_wit :
    (∃ c, custom_connect (some "AA:BB:CC:DD:EE:FF") = ConnectResult.client c) ∧
      custom_connect none = ConnectResult.original none :=
  ⟨claim2_direct_or_fallback.1 "AA:BB:CC:DD:EE:FF" (by decide),
   claim2_direct_or_fallback.2⟩

/-- Claim C3: after the connection handle has been created successfully
(`connectOk = true`, address argument present), every process exit in the
session's action trace — reached by user interrupt or by an unexpected
exception; the loop has no normal termination — is immediately preceded by
the close of the connection handle. -/
theorem claim3_close_before_exit (argv : List String) (events : List InEvent)
    (c : Nat) (hargv : 2 ≤ argv.length)
    (h : Act.exitProc c ∈ mainRun argv true events) :
    ∃ pre, mainRun argv true events = pre ++ [Act.close, Act.exitProc c] := by
  have hlt : ¬ argv.length < 2 := by omega
  rw [mainRun, if_neg hlt] at h ⊢
  simp only [Bool.true_eq_false, if_false] at h ⊢
  exact (loopActs_close_before_exit events c h).2

/-- Witness for C3: interrupt during the first input wait. -/
theorem claim3_wit :
    ∃ pre, mainRun ["bimcc.py", "AA:BB"] true [InEvent.interrupt] =
      pre ++ [Act.close, Act.exitProc 0] :=
  claim3_close_before_exit ["bimcc.py", "AA:BB"] [InEvent.interrupt] 0
    (by decide) (by decide)

/-- Claim C6: in the connected session loop, an empty input line contributes
no transport action at all (its iteration leaves the trace unchanged), while
the input line "hello" contributes exactly one send action, with text
"hello" and channel index 0. -/
theorem claim6_send_per_line (rest : List InEvent) :
    loopActs (InEvent.line "" :: rest) = loopActs rest ∧
      loopActs (InEvent.line "hello" :: rest) =
        Act.send "hello" 0 :: loopActs rest := by
  constructor
  · simp [loopActs]
  · rw [loopActs, if_neg (by decide)]
    rfl

/-- Claim C8: the process exits with status 1 when the address argument is
missing or when the connection constructor fails, and every exit reached
from a successful connection (normal loop exit via interrupt, or via an
unexpected exception) carries status 0. -/
theorem claim8_exit_codes (argv : List String) (connectOk : Bool)
    (events : List InEvent) :
    (argv.length < 2 → mainRun argv connectOk events = [Act.exitProc 1]) ∧
    (2 ≤ argv.length → connectOk = false →
      mainRun argv connectOk events = [Act.exitProc 1]) ∧
    (2 ≤ argv.length → connectOk = true →
      ∀ c, Act.exitProc c ∈ mainRun argv connectOk events → c = 0) := by
  refine ⟨?_, ?_, ?_⟩
  · intro h
    simp [mainRun, h]
  · intro h1 h2
    have hlt : ¬ argv.length < 2 := by omega
    simp [mainRun, hlt, h2]
  · intro h1 h2 c hc
    have hlt : ¬ argv.length < 2 := by omega
    subst h2
    rw [mainRun, if_neg hlt] at hc
    simp only [Bool.true_eq_false, if_false] at hc
    exact (loopActs_close_before_exit events c hc).1

/-- Witness for C8: missing argument, failed connection, and an
interrupt exit, each at concrete inputs. -/
theorem claim8_wit :
    mainRun ["bimcc.py"] true [] = [Act.exitProc 1] ∧
    mainRun ["bimcc.py", "AA:BB"] false [] = [Act.exitProc 1] ∧
    (0 : Nat) = 0 :=
  ⟨(claim8_exit_codes ["bimcc.py"] true []).1 (by decide),
   (claim8_exit_codes ["bimcc.py", "AA:BB"] false []).2.1 (by decide) rfl,
   (claim8_exit_codes ["bimcc.py", "AA:BB"] true [InEvent.interrupt]).2.2
     (by decide) rfl 0 (by decide)⟩

/-- Counterexample for C5: on the event with sender "node1" and decoded text
"hi", the handler's console output is not exactly "\nnode1: hi" immediately
followed by the prompt "Ch0> " — `print` terminates the message line with a
newline first. -/
theorem claim5_cex :
    String.join (onReceive (some ⟨some "node1", some ⟨some "hi"⟩⟩)) ≠
      "\nnode1: hi" ++ "Ch0> " := by decide

/-- Claim C5 (amended): on that event the handler writes exactly
"\nnode1: hi" followed by the line-terminating newline of `print`, and then
the prompt string "Ch0> ". -/
theorem claim5_output :
    onReceive (some ⟨some "node1", some ⟨some "hi"⟩⟩) =
        ["\nnode1: hi\n", "Ch0> "] ∧
      String.join (onReceive (some ⟨some "node1", some ⟨some "hi"⟩⟩)) =
        "\nnode1: hi\n" ++ "Ch0> " :=
  ⟨rfl, by decide⟩

/-- Claim C7: invoked with no packet, or with a packet whose decoded payload
carries no text field (whether the "decoded" entry is absent or merely lacks
"text"), the handler writes nothing to the console.  In this embedding the
handler is a total function, so no exception can be raised on these paths. -/
theorem claim7_no_text_no_output :
    onReceive none = [] ∧
      ∀ p : Packet, (p.decoded.getD ⟨none⟩).text = none →
        onReceive (some p) = [] := by
  refine ⟨rfl, ?_⟩
  intro p h
  simp [onReceive, h]

/-- Witness for C7: a packet with a sender but a decoded entry lacking
"text". -/
theorem claim7_wit :
    onReceive none = [] ∧ onReceive (some ⟨some "node1", some ⟨none⟩⟩) = [] :=
  ⟨claim7_no_text_no_output.1,
   claim7_no_text_no_output.2 ⟨some "node1", some ⟨none⟩⟩ rfl⟩

/-- Claim C9: on every invocation, regardless of whether the match succeeds
or the call fails, `custom_find_device` prints the header line followed by
exactly one descriptor line (address and name) per discovered device, in
scan order. -/
theorem claim9_scan_always_printed (D : List BLEDevice) (a : String) :
    (custom_find_device D a).1 = "Discovered Devices:" :: D.map devLine := by
  cases h : D.find? (addrMatches a) <;> simp [custom_find_device, h]

/-- Claim C4: when at most one discovered descriptor matches the target
address case-insensitively, `custom_find_device` returns the matching
descriptor whenever one exists, fails with the no-device message — which
ends in the suggestion to run the diagnostic scan command — when none does,
and its outcome is invariant under reordering of the discovered list. -/
theorem claim4_find_device (D : List BLEDevice) (a : String)
    (huniq : ∀ d1 d2, d1 ∈ D → d2 ∈ D → addrMatches a d1 = true →
      addrMatches a d2 = true → d1 = d2) :
    (∀ d, d ∈ D → addrMatches a d = true →
        (custom_find_device D a).2 = Except.ok d) ∧
    ((∀ d, d ∈ D → addrMatches a d = false) →
        (custom_find_device D a).2 = Except.error (noDeviceMsg a) ∧
        ∃ pre, noDeviceMsg a = pre ++ "Try --ble-scan.") ∧
    (∀ D2, D.Perm D2 →
        (custom_find_device D a).2 = (custom_find_device D2 a).2) := by
  refine ⟨?_, ?_, ?_⟩
  · intro d hd hpd
    have hf := find?_eq_of_unique (addrMatches a) D huniq d hd hpd
    simp [custom_find_device, hf]
  · intro hnone
    have hf : D.find? (addrMatches a) = none :=
      List.find?_eq_none.mpr (fun x hx => by simp [hnone x hx])
    refine ⟨by simp [custom_find_device, hf], ?_⟩
    refine ⟨"No BLE peripheral with address \x27" ++ a ++ "\x27 found. ", ?_⟩
    have hsplit : ("\x27 found. Try --ble-scan." : String) =
        "\x27 found. " ++ "Try --ble-scan." := by decide
    rw [noDeviceMsg, hsplit, ← String.append_assoc]
  · intro D2 hperm
    by_cases hex : ∃ d, d ∈ D ∧ addrMatches a d = true
    · obtain ⟨d, hd, hpd⟩ := hex
      have huniq2 : ∀ d1 d2, d1 ∈ D2 → d2 ∈ D2 → addrMatches a d1 = true →
          addrMatches a d2 = true → d1 = d2 :=
        fun d1 d2 m1 m2 => huniq d1 d2 (hperm.symm.subset m1) (hperm.symm.subset m2)
      have h1 := find?_eq_of_unique (addrMatches a) D huniq d hd hpd
      have h2 := find?_eq_of_unique (addrMatches a) D2 huniq2 d (hperm.subset hd) hpd
      simp [custom_find_device, h1, h2]
    · push_neg at hex
      have h1 : D.find? (addrMatches a) = none :=
        List.find?_eq_none.mpr (fun x hx => by simp [hex x hx])
      have h2 : D2.find? (addrMatches a) = none :=
        List.find?_eq_none.mpr (fun x hx => by simp [hex x (hperm.symm.subset hx)])
      simp [custom_find_device, h1, h2]

/-- Witness for C4: a one-element scan result matched case-insensitively. -/
theorem claim4_wit :
    (custom_find_device [⟨"AB", "n"⟩] "ab").2 = Except.ok ⟨"AB", "n"⟩ :=
  (claim4_find_device [⟨"AB", "n"⟩] "ab"
      (fun d1 d2 h1 h2 _ _ => by
        rw [List.mem_singleton] at h1 h2
        rw [h1, h2])).1
    ⟨"AB", "n"⟩ (by simp) (by decide)

/-- Claim C10: with several case-insensitive matches present,
`custom_find_device` returns the earliest match in scan order: whenever the
discovered list splits as `pre ++ d :: post` with nothing in `pre` matching
and `d` matching, the result is `d`, whatever `post` holds.  The result is
deterministic: the embedding is a pure function of the discovered list and
the target address, which is all the source reads. -/
theorem claim10_first_match (pre : List BLEDevice) (d : BLEDevice)
    (post : List BLEDevice) (a : String)
    (hpre : ∀ x, x ∈ pre → addrMatches a x = false)
    (hd : addrMatches a d = true) :
    (custom_find_device (pre ++ d :: post) a).2 = Except.ok d := by
  have hf : (pre ++ d :: post).find? (addrMatches a) = some d := by
    induction pre with
    | nil => simp [List.find?_cons_of_pos, hd]
    | cons x xs ih =>
        have hx : addrMatches a x = false := hpre x (by simp)
        rw [List.cons_append, List.find?_cons_of_neg _ (by simp [hx])]
        exact ih (fun y hy => hpre y (by simp [hy]))
  simp [custom_find_device, hf]

/-- Witness for C10: two matches for "ab"; the earlier one (device "AB",
named "first") is returned, not the later exact-case one. -/
theorem claim10_wit :
    (custom_find_device ([⟨"XX", "x"⟩] ++ ⟨"AB", "first"⟩ :: [⟨"ab", "second"⟩])
        "ab").2 = Except.ok ⟨"AB", "first"⟩ :=
  claim10_first_match [⟨"XX", "x"⟩] ⟨"AB", "first"⟩ [⟨"ab", "second"⟩] "ab"
    (fun x hx => by
      rw [List.mem_singleton] at hx
      rw [hx]
      decide)
    (by decide)
